import Mathlib

set_option maxRecDepth 4000

/-!
Shallow embedding of the realtime audio streaming pipeline of the ChatGPS
repository: the `LiveChat` component (src/components/LiveChat.tsx) and the
`Transcriber` component (second file of src/unnamed/part_000).

The React component state and the mutable refs are gathered into one state
record per component; each event handler of the source (button handlers and
the four backend callbacks) becomes a state transformer that also returns
the list of externally visible resource effects it performs, in order.
React's `setX(value)` is modelled as writing `value` into the state record,
and `setX(prev => e)` as writing `e` evaluated at the current field value.
A value captured by a JavaScript closure at the time the closure was created
(rather than read from the current state) is passed to the transformer as an
explicit `captured…` argument.
-/

namespace ChatGPS

/-- State of a Web Audio `AudioContext` as observed through its `state`
attribute: `running` after creation, `closed` once `close()` has taken
effect. -/
inductive CtxState where
  | running
  | closed
deriving DecidableEq, Repr

/-- The externally visible resource actions the LiveChat / Transcriber
handlers perform, in the order the source performs them:
`streamOpen` is the `ai.live.connect` call, `micAcquire` is
`navigator.mediaDevices.getUserMedia`, `graphWire` is connecting the media
source to the script processor and the processor to the destination,
`sessionClose` is `session.close()`, `trackStop` is stopping the microphone
tracks, `procDisconnect` is `scriptProcessor.disconnect()`, and `ctxClose`
is `audioContext.close()`. -/
inductive Effect where
  | streamOpen
  | micAcquire
  | graphWire
  | sessionClose
  | trackStop
  | procDisconnect
  | ctxClose
deriving DecidableEq, Repr

/-- A finished transcript turn as stored in the `transcription` state of
`LiveChat`: the user's transcribed speech and the model's transcribed
response. -/
structure Turn where
  user : String
  model : String
deriving DecidableEq, Repr

/-- The combined React state and refs of the `LiveChat` component:
`isConnecting`/`isActive`/`transcription`/`currentInterim` are the
`useState` values, the four `…Ref` fields are the `useRef` cells
(`sessionRef`, `streamRef`, `scriptProcessorRef` hold opaque handles, so
only their presence is modelled; `audioContextRef` additionally exposes the
context's `state` attribute, which `stopConversation` consults). -/
structure LiveChatState where
  isConnecting : Bool
  isActive : Bool
  transcription : List Turn
  currentInterim : Turn
  sessionRef : Option Unit
  streamRef : Option Unit
  scriptProcessorRef : Option Unit
  audioContextRef : Option CtxState
deriving DecidableEq, Repr

/-- The state of a freshly mounted `LiveChat` component: all flags false,
empty transcript, empty interim buffers, all refs null. -/
def initialLiveChatState : LiveChatState :=
  { isConnecting := false
    isActive := false
    transcription := []
    currentInterim := ⟨"", ""⟩
    sessionRef := none
    streamRef := none
    scriptProcessorRef := none
    audioContextRef := none }

/-- `stopConversation` (LiveChat.tsx lines 57–75): if `sessionRef` is set,
request `session.close()` and null the ref; if `streamRef` is set, stop all
microphone tracks and null the ref; if `scriptProcessorRef` is set,
disconnect it and null the ref; if `audioContextRef` is set and its state is
not `'closed'`, close it (the ref itself is never nulled); finally set
`isActive` and `isConnecting` to false. The transcript state
(`transcription`, `currentInterim`) is not touched. -/
def stopConversation (s : LiveChatState) : LiveChatState × List Effect :=
  let (s1, e1) :=
    match s.sessionRef with
    | some _ => ({ s with sessionRef := none }, [Effect.sessionClose])
    | none => (s, [])
  let (s2, e2) :=
    match s1.streamRef with
    | some _ => ({ s1 with streamRef := none }, [Effect.trackStop])
    | none => (s1, [])
  let (s3, e3) :=
    match s2.scriptProcessorRef with
    | some _ => ({ s2 with scriptProcessorRef := none }, [Effect.procDisconnect])
    | none => (s2, [])
  let (s4, e4) :=
    match s3.audioContextRef with
    | some st =>
      if st ≠ CtxState.closed then
        ({ s3 with audioContextRef := some CtxState.closed }, [Effect.ctxClose])
      else (s3, [])
    | none => (s3, [])
  ({ s4 with isActive := false, isConnecting := false }, e1 ++ e2 ++ e3 ++ e4)

/-- `startConversation` up to the `ai.live.connect` call (LiveChat.tsx
lines 77–99): a no-op if `isActive || isConnecting`; otherwise set
`isConnecting`, clear the transcript and the interim buffers, and store the
pending session promise in `sessionRef` (the connect call is the
`streamOpen` effect). Nothing else happens until a backend callback
fires. -/
def startConversation (s : LiveChatState) : LiveChatState × List Effect :=
  if s.isActive || s.isConnecting then (s, [])
  else
    ({ s with isConnecting := true
              transcription := []
              currentInterim := ⟨"", ""⟩
              sessionRef := some () },
     [Effect.streamOpen])

/-- The `onopen` callback (LiveChat.tsx lines 101–127), parametrised by
whether `getUserMedia` succeeds. On success it unconditionally — with no
check of whether the session was stopped meanwhile — acquires the
microphone, stores the stream and a fresh input `AudioContext`, wires the
capture graph, and flips the state to active. If `getUserMedia` rejects
(permission denied / no device), the async callback aborts at the first
`await`: no state field has been written yet, nothing is cleaned up, and
the rejection is not caught by any handler in the component. -/
def onopen (micGranted : Bool) (s : LiveChatState) : LiveChatState × List Effect :=
  if micGranted then
    ({ s with streamRef := some ()
              audioContextRef := some CtxState.running
              scriptProcessorRef := some ()
              isConnecting := false
              isActive := true },
     [Effect.micAcquire, Effect.graphWire])
  else
    (s, [])

/-- The `onclose` callback (LiveChat.tsx lines 157–159): it just calls
`stopConversation`. -/
def onclose (s : LiveChatState) : LiveChatState × List Effect :=
  stopConversation s

/-- The transcript-relevant content of one backend `LiveServerMessage`:
an optional input-transcription delta, an optional output-transcription
delta, and the turn-complete flag (`message.serverContent`). -/
structure ServerMessage where
  inputDelta : Option String
  outputDelta : Option String
  turnComplete : Bool
deriving DecidableEq, Repr

/-- The transcript part of the `onmessage` callback (LiveChat.tsx lines
128–139). The two delta updates use functional `setCurrentInterim(prev =>
…)`, so they append to the current buffers. The turn-complete branch runs
`setTranscription(prev => [...prev, currentInterim])`: `prev` is the
current log, but `currentInterim` is the plain identifier captured by the
`onmessage` closure when `startConversation` created it — the value of the
`currentInterim` state at that render, passed here as `capturedInterim` —
not the current buffer contents. It then resets the buffers with
`setCurrentInterim({user: '', model: ''})`. -/
def onmessageTranscript (capturedInterim : Turn) (s : LiveChatState)
    (m : ServerMessage) : LiveChatState :=
  let s :=
    match m.inputDelta with
    | some t =>
      { s with currentInterim := { s.currentInterim with user := s.currentInterim.user ++ t } }
    | none => s
  let s :=
    match m.outputDelta with
    | some t =>
      { s with currentInterim := { s.currentInterim with model := s.currentInterim.model ++ t } }
    | none => s
  if m.turnComplete then
    { s with transcription := s.transcription ++ [capturedInterim]
             currentInterim := ⟨"", ""⟩ }
  else s

/-- Deliver a list of backend messages to `onmessageTranscript` in arrival
order; `capturedInterim` is fixed for the whole session because the
`onmessage` closure is created once. -/
def runMessages (capturedInterim : Turn) (s : LiveChatState) :
    List ServerMessage → LiveChatState
  | [] => s
  | m :: rest => runMessages capturedInterim (onmessageTranscript capturedInterim s m) rest

/-- What the spec asks of the accumulator (spec §4.4 and §8): for the claim
C2 comparison, the user/model texts of the turn appended on turn-complete
should be the concatenations of the deltas in arrival order. Defined from
the spec's words, to be compared with `onmessageTranscript`. -/
def specConcatDeltas (ms : List ServerMessage) : Turn :=
  ms.foldl
    (fun acc m =>
      let acc := match m.inputDelta with
        | some t => { acc with user := acc.user ++ t }
        | none => acc
      match m.outputDelta with
        | some t => { acc with model := acc.model ++ t }
        | none => acc)
    ⟨"", ""⟩

/-- The combined React state and refs of the `Transcriber` component
(src/unnamed/part_000, lines 152–279): `isRecording`, the interim
`transcription` string, the `finalizedTranscription` string, and the same
four refs as `LiveChat`. -/
structure TranscriberState where
  isRecording : Bool
  transcription : String
  finalizedTranscription : String
  sessionRef : Option Unit
  streamRef : Option Unit
  scriptProcessorRef : Option Unit
  audioContextRef : Option CtxState
deriving DecidableEq, Repr

/-- `stopTranscription` (part_000 lines 162–181): the same four guarded
resource releases as `stopConversation`, then `setIsRecording(false)`,
then `setFinalizedTranscription(prev => prev + transcription)` — `prev` is
the current finalized text while `transcription` is the value captured by
the `useCallback` closure (equal to the current interim on the
button-click path, whose closure was re-created on the last render) —
then `setTranscription('')`. -/
def stopTranscription (capturedTranscription : String) (s : TranscriberState) :
    TranscriberState × List Effect :=
  let (s1, e1) :=
    match s.sessionRef with
    | some _ => ({ s with sessionRef := none }, [Effect.sessionClose])
    | none => (s, [])
  let (s2, e2) :=
    match s1.streamRef with
    | some _ => ({ s1 with streamRef := none }, [Effect.trackStop])
    | none => (s1, [])
  let (s3, e3) :=
    match s2.scriptProcessorRef with
    | some _ => ({ s2 with scriptProcessorRef := none }, [Effect.procDisconnect])
    | none => (s2, [])
  let (s4, e4) :=
    match s3.audioContextRef with
    | some st =>
      if st ≠ CtxState.closed then
        ({ s3 with audioContextRef := some CtxState.closed }, [Effect.ctxClose])
      else (s3, [])
    | none => (s3, [])
  ({ s4 with isRecording := false
             finalizedTranscription := s4.finalizedTranscription ++ capturedTranscription
             transcription := "" },
   e1 ++ e2 ++ e3 ++ e4)

/-- `startTranscription` up to the `ai.live.connect` call (part_000 lines
183–192): a no-op only if `isRecording` is already true — there is no
"connecting" flag, so a start that is still in flight (connect issued,
`onopen` not yet run, `isRecording` still false) does not block a second
call. Otherwise it stores the session promise and issues the connect. -/
def startTranscription (s : TranscriberState) : TranscriberState × List Effect :=
  if s.isRecording then (s, [])
  else ({ s with sessionRef := some () }, [Effect.streamOpen])

/-! ### Playback scheduling (LiveChat.tsx lines 86–89 and 141–151) -/

/-- The playback cursor `nextStartTime` is initialized by
`let nextStartTime = 0` (line 86). -/
def initialNextStartTime : ℚ := 0

/-- The `currentTime` of a freshly created `AudioContext` (line 87): the
Web Audio clock of a new context starts at 0. -/
def freshContextCurrentTime : ℚ := 0

/-- One audio message of the playback stream, as the scheduler sees it:
the context's `currentTime` at arrival and the decoded buffer's
duration. -/
def scheduleChunks (cursor : ℚ) : List (ℚ × ℚ) → List (ℚ × ℚ) × ℚ
  | [] => ([], cursor)
  | (t, d) :: rest =>
    let start := max cursor t
    let (sched, final) := scheduleChunks (start + d) rest
    ((start, d) :: sched, final)

/-- No two scheduled buffers overlap: each start time is at least the
previous start time plus the previous duration, over the `(start, duration)`
list produced by `scheduleChunks`. -/
def noOverlapB : List (ℚ × ℚ) → Bool
  | (s1, d1) :: (s2, d2) :: rest => decide (s1 + d1 ≤ s2) && noOverlapB ((s2, d2) :: rest)
  | _ => true

/-- "No underrun": every chunk arrives no later than the cursor value in
force when it is processed (the context clock never overtakes the
schedule). -/
def noUnderrunB : ℚ → List (ℚ × ℚ) → Bool
  | _, [] => true
  | cursor, (t, d) :: rest => decide (t ≤ cursor) && noUnderrunB (cursor + d) rest

/-- Sum of the durations of a chunk list. -/
def durSum : List (ℚ × ℚ) → ℚ
  | [] => 0
  | (_, d) :: rest => d + durSum rest

/-- The audio part of one `onmessage` invocation (LiveChat.tsx lines
141–151), for a message that carries an inline audio payload. The code
first sets `nextStartTime = Math.max(nextStartTime, currentTime)` (line
143), then awaits the decode. `decoded = some d` models a payload that
decodes to a buffer of duration `d`: a source is scheduled at the updated
cursor and the cursor advances by `d`. `decoded = none` models a payload on
which `decode`/`decodeAudioData` throws (bad base64, odd byte length): the
async callback aborts there — nothing is scheduled and the
`nextStartTime += audioBuffer.duration` line never runs — and the rejection
is not caught, but later `onmessage` invocations are unaffected. Returns
the new cursor and the scheduled start time, if any. -/
def processAudioChunk (cursor now : ℚ) (decoded : Option ℚ) : ℚ × Option ℚ :=
  let c := max cursor now
  match decoded with
  | some d => (c + d, some c)
  | none => (c, none)

/-! ### Base64 `encode` / `decode` (LiveChat.tsx lines 7–24)

The source's `encode` builds a binary string with `String.fromCharCode`
over the bytes and passes it to the browser built-in `btoa`; `decode`
passes the string to the built-in `atob` and reads the bytes back with
`charCodeAt`. Strings are modelled as `List Char`, bytes as `Nat` values
below 256. `btoa`/`atob` are the platform's standard base64 built-ins
(RFC 4648 alphabet with `'='` padding), modelled here on well-formed
input: `btoa` emits four sixtet characters per three input char codes,
and `atob` maps the non-padding characters back to sixtets and repacks
them three bytes per four sixtets. -/

/-- The 64-character base64 alphabet `A–Z a–z 0–9 + /`. -/
def base64Alphabet : List Char :=
  ((List.range 26).map (fun i => Char.ofNat (65 + i))) ++
  ((List.range 26).map (fun i => Char.ofNat (97 + i))) ++
  ((List.range 10).map (fun i => Char.ofNat (48 + i))) ++
  ['+', '/']

/-- The alphabet character of a sixtet value (< 64). -/
def sixtetToChar (n : Nat) : Char :=
  base64Alphabet.getD n 'A'

/-- The sixtet value of an alphabet character. -/
def charToSixtet (c : Char) : Nat :=
  base64Alphabet.indexOf c

/-- `btoa` on the char-code sequence of the binary string: three bytes
`a b c` become the four sixtets `a/4`, `a%4·16 + b/16`, `b%16·4 + c/64`,
`c%64`; a trailing group of two or one byte is padded with `'='`. -/
def btoaBytes : List Nat → List Char
  | [] => []
  | [a] => [sixtetToChar (a / 4), sixtetToChar (a % 4 * 16), '=', '=']
  | [a, b] =>
    [sixtetToChar (a / 4), sixtetToChar (a % 4 * 16 + b / 16),
     sixtetToChar (b % 16 * 4), '=']
  | a :: b :: c :: rest =>
    sixtetToChar (a / 4) :: sixtetToChar (a % 4 * 16 + b / 16) ::
    sixtetToChar (b % 16 * 4 + c / 64) :: sixtetToChar (c % 64) :: btoaBytes rest

/-- Repack sixtets into bytes: four sixtets `s0 s1 s2 s3` become the bytes
`s0·4 + s1/16`, `s1%16·16 + s2/4`, `s2%4·64 + s3`; a trailing group of two
or three sixtets (from a padded final quantum) yields one or two bytes. -/
def sixtetsToBytes : List Nat → List Nat
  | s0 :: s1 :: s2 :: s3 :: rest =>
    (s0 * 4 + s1 / 16) :: (s1 % 16 * 16 + s2 / 4) :: (s2 % 4 * 64 + s3) ::
      sixtetsToBytes rest
  | [s0, s1] => [s0 * 4 + s1 / 16]
  | [s0, s1, s2] => [s0 * 4 + s1 / 16, s1 % 16 * 16 + s2 / 4]
  | _ => []

/-- `atob` down to byte values: drop the `'='` padding, map the alphabet
characters to sixtets, repack into bytes. -/
def atobBytes (s : List Char) : List Nat :=
  sixtetsToBytes ((s.filter (fun c => c ≠ '=')).map charToSixtet)

/-- `encode` (lines 7–14): `binary += String.fromCharCode(bytes[i])` then
`btoa(binary)` — `btoa` reads the char codes of the binary string. -/
def encode (bytes : List Nat) : List Char :=
  btoaBytes ((bytes.map Char.ofNat).map Char.toNat)

/-- `atob` as the source sees it: a binary string whose char codes are the
decoded bytes. -/
def atobStr (s : List Char) : List Char :=
  (atobBytes s).map Char.ofNat

/-- `decode` (lines 16–24): `atob(base64)` then
`bytes[i] = binaryString.charCodeAt(i)`. -/
def decode (s : List Char) : List Nat :=
  (atobStr s).map Char.toNat

/-! ### Derived states and iterated stop -/

/-- `stopConversation` called `n` times in a row, collecting the combined
effect trace. -/
def stopTimes : Nat → LiveChatState → LiveChatState × List Effect
  | 0, s => (s, [])
  | n + 1, s =>
    ((stopTimes n (stopConversation s).1).1,
     (stopConversation s).2 ++ (stopTimes n (stopConversation s).1).2)

/-- `stopTranscription` called `n` times in a row, collecting the combined
effect trace. Each call captures the component's current `transcription`
value, as on the button-click path, where the `useCallback` closure was
re-created on the render that followed the previous state update. -/
def stopTranscriptionTimes : Nat → TranscriberState → TranscriberState × List Effect
  | 0, t => (t, [])
  | n + 1, t =>
    ((stopTranscriptionTimes n (stopTranscription t.transcription t).1).1,
     (stopTranscription t.transcription t).2 ++
       (stopTranscriptionTimes n (stopTranscription t.transcription t).1).2)

/-- The `LiveChat` state while a start is in flight: `startConversation`
has run on a fresh mount, the backend connect was issued, no callback has
fired yet. -/
def liveConnectingState : LiveChatState :=
  (startConversation initialLiveChatState).1

/-- The state after the user stopped the conversation while the start was
still in flight (before `onopen` ran). -/
def stoppedMidStart : LiveChatState :=
  (stopConversation liveConnectingState).1

/-- The state of a fully established session: start, then `onopen` with
the microphone granted. -/
def liveActiveState : LiveChatState :=
  (onopen true liveConnectingState).1

/-- The state after `onopen` ran with `getUserMedia` rejecting (microphone
permission denied). -/
def startDeniedState : LiveChatState :=
  (onopen false liveConnectingState).1

/-- An active session in which both interim buffers hold partial text and
no turn has been finalized yet. -/
def interimPendingState : LiveChatState :=
  { liveActiveState with currentInterim := ⟨"hello", "hi there"⟩ }

/-- The message sequence of spec scenario A: two input partial deltas
"Hel", "lo", then a turn-complete marker. -/
def scenarioAMessages : List ServerMessage :=
  [⟨some "Hel", none, false⟩, ⟨some "lo", none, false⟩, ⟨none, none, true⟩]

/-- The state of a freshly mounted `Transcriber` component. -/
def initialTranscriberState : TranscriberState :=
  { isRecording := false
    transcription := ""
    finalizedTranscription := ""
    sessionRef := none
    streamRef := none
    scriptProcessorRef := none
    audioContextRef := none }

/-- The `Transcriber` state while a start is in flight: the connect was
issued, `onopen` has not yet run, so `isRecording` is still false. -/
def transcriberConnectingState : TranscriberState :=
  (startTranscription initialTranscriberState).1

/-- A `Transcriber` state with an established recording session. -/
def transcriberRecordingState : TranscriberState :=
  { initialTranscriberState with
      isRecording := true
      sessionRef := some ()
      streamRef := some ()
      scriptProcessorRef := some ()
      audioContextRef := some CtxState.running }

/-! ### Helper lemmas -/

/-- A second `stopConversation` finds every guard false: the state is
unchanged and no effect is performed. -/
theorem stop_after_stop (s : LiveChatState) :
    stopConversation (stopConversation s).1 = ((stopConversation s).1, []) := by
  obtain ⟨ic, ia, tr, ci, sess, str, proc, ctx⟩ := s
  cases sess <;> cases str <;> cases proc <;>
    first
    | (cases ctx with
       | none => simp [stopConversation]
       | some st => cases st <;> simp [stopConversation])

/-- `stopConversation` never touches the transcript log or the interim
buffers. -/
theorem stop_transcript_untouched (s : LiveChatState) :
    (stopConversation s).1.transcription = s.transcription ∧
    (stopConversation s).1.currentInterim = s.currentInterim := by
  obtain ⟨ic, ia, tr, ci, sess, str, proc, ctx⟩ := s
  cases sess <;> cases str <;> cases proc <;>
    first
    | (cases ctx with
       | none => simp [stopConversation]
       | some st => cases st <;> simp [stopConversation])

/-- `stopTranscription` appends the captured interim text to the finalized
transcription and clears the interim buffer, whatever the resource
situation. -/
theorem stopTranscription_flushes (cap : String) (t : TranscriberState) :
    (stopTranscription cap t).1.finalizedTranscription =
      t.finalizedTranscription ++ cap ∧
    (stopTranscription cap t).1.transcription = "" := by
  obtain ⟨ir, tr, fin, sess, str, proc, ctx⟩ := t
  cases sess <;> cases str <;> cases proc <;>
    first
    | (cases ctx with
       | none => simp [stopTranscription]
       | some st => cases st <;> simp [stopTranscription])

/-- Calling `stopConversation` one or more times equals calling it once,
in both final state and combined effect trace. -/
theorem stopTimes_succ_eq : ∀ (n : Nat) (s : LiveChatState),
    stopTimes (n + 1) s = stopConversation s := by
  intro n
  induction n with
  | zero =>
    intro s
    simp [stopTimes]
  | succ n ih =>
    intro s
    conv_lhs => rw [stopTimes]
    rw [ih, stop_after_stop s]
    simp

/-- A second `stopTranscription`, capturing the now-empty interim string,
finds every guard false and appends nothing: the state is unchanged and no
effect is performed. -/
theorem stopTranscription_after_stop (cap : String) (t : TranscriberState) :
    stopTranscription (stopTranscription cap t).1.transcription
      (stopTranscription cap t).1 = ((stopTranscription cap t).1, []) := by
  obtain ⟨ir, tr, fin, sess, str, proc, ctx⟩ := t
  cases sess <;> cases str <;> cases proc <;>
    first
    | (cases ctx with
       | none => simp [stopTranscription]
       | some st => cases st <;> simp [stopTranscription])

/-- Calling `stopTranscription` one or more times, each call capturing the
current interim string, equals calling it once, in both final state and
combined effect trace. -/
theorem stopTranscriptionTimes_succ_eq : ∀ (n : Nat) (t : TranscriberState),
    stopTranscriptionTimes (n + 1) t = stopTranscription t.transcription t := by
  intro n
  induction n with
  | zero =>
    intro t
    simp [stopTranscriptionTimes]
  | succ n ih =>
    intro t
    conv_lhs => rw [stopTranscriptionTimes]
    rw [ih, stopTranscription_after_stop t.transcription t]
    simp

/-- Unfolding lemma for `scheduleChunks` on a cons cell. -/
theorem scheduleChunks_cons (cursor t d : ℚ) (rest : List (ℚ × ℚ)) :
    scheduleChunks cursor ((t, d) :: rest) =
      ((max cursor t, d) :: (scheduleChunks (max cursor t + d) rest).1,
       (scheduleChunks (max cursor t + d) rest).2) := by
  simp [scheduleChunks]

/-- The `(start, duration)` schedule produced by `scheduleChunks` never
overlaps: each start is at least the previous start plus the previous
duration. -/
theorem scheduleChunks_noOverlap : ∀ (chunks : List (ℚ × ℚ)) (cursor : ℚ),
    noOverlapB (scheduleChunks cursor chunks).1 = true := by
  intro chunks
  induction chunks with
  | nil => intro cursor; rfl
  | cons ch rest ih =>
    intro cursor
    obtain ⟨t, d⟩ := ch
    rw [scheduleChunks_cons]
    cases hrest : rest with
    | nil => simp [scheduleChunks, noOverlapB]
    | cons ch2 rest2 =>
      obtain ⟨t2, d2⟩ := ch2
      rw [scheduleChunks_cons]
      simp only [noOverlapB, Bool.and_eq_true, decide_eq_true_eq]
      constructor
      · exact le_max_left _ _
      · have h2 := ih (max cursor t + d)
        rw [hrest, scheduleChunks_cons] at h2
        exact h2

/-- With no underrun the final cursor is the initial cursor plus the sum
of all scheduled durations. -/
theorem scheduleChunks_final : ∀ (chunks : List (ℚ × ℚ)) (cursor : ℚ),
    noUnderrunB cursor chunks = true →
    (scheduleChunks cursor chunks).2 = cursor + durSum chunks := by
  intro chunks
  induction chunks with
  | nil => intro cursor _; simp [scheduleChunks, durSum]
  | cons ch rest ih =>
    intro cursor h
    obtain ⟨t, d⟩ := ch
    simp only [noUnderrunB, Bool.and_eq_true, decide_eq_true_eq] at h
    rw [scheduleChunks_cons, max_eq_left h.1]
    simp only [durSum]
    rw [ih (cursor + d) h.2]
    ring

/-- Decoding an alphabet character inverts encoding a sixtet. -/
theorem charToSixtet_sixtetToChar : ∀ n < 64, charToSixtet (sixtetToChar n) = n := by
  decide

/-- No sixtet encodes to the padding character. -/
theorem sixtetToChar_ne_pad : ∀ n < 64, sixtetToChar n ≠ '=' := by
  decide

/-- Filtering the padding out of a string keeps a leading alphabet
character. -/
theorem filter_pad_cons_alpha (x : Nat) (hx : x < 64) (l : List Char) :
    (sixtetToChar x :: l).filter (fun c => c ≠ '=') =
      sixtetToChar x :: l.filter (fun c => c ≠ '=') := by
  simp [List.filter_cons, sixtetToChar_ne_pad _ hx]

/-- Filtering the padding out of a string drops a leading `'='`. -/
theorem filter_pad_cons_pad (l : List Char) :
    ('=' :: l).filter (fun c => c ≠ '=') = l.filter (fun c => c ≠ '=') := by
  simp [List.filter_cons]

/-- Char codes below 256 survive the `String.fromCharCode` /
`charCodeAt` round trip. -/
theorem char_code_roundtrip : ∀ b < 256, (Char.ofNat b).toNat = b := by
  decide

/-- Mapping a byte list into a binary string and reading the codes back
is the identity. -/
theorem map_ofNat_toNat : ∀ l : List Nat, (∀ b ∈ l, b < 256) →
    (l.map Char.ofNat).map Char.toNat = l := by
  intro l
  induction l with
  | nil => intro _; rfl
  | cons x xs ih =>
    intro h
    simp only [List.map_cons, List.cons.injEq]
    exact ⟨char_code_roundtrip x (h x (by simp)),
      ih (fun b hb => h b (by simp [hb]))⟩

/-- Base64 decoding inverts base64 encoding on byte values. -/
theorem atobBytes_btoaBytes : ∀ l : List Nat, (∀ b ∈ l, b < 256) →
    atobBytes (btoaBytes l) = l := by
  intro l
  induction l using btoaBytes.induct with
  | case1 => intro _; rfl
  | case2 a =>
    intro h
    have ha : a < 256 := h a (by simp)
    have h1 : a / 4 < 64 := by omega
    have h2 : a % 4 * 16 < 64 := by omega
    show atobBytes [sixtetToChar (a / 4), sixtetToChar (a % 4 * 16), '=', '='] = [a]
    unfold atobBytes
    rw [filter_pad_cons_alpha _ h1, filter_pad_cons_alpha _ h2, filter_pad_cons_pad,
      filter_pad_cons_pad, List.filter_nil, List.map_cons, List.map_cons, List.map_nil,
      charToSixtet_sixtetToChar _ h1, charToSixtet_sixtetToChar _ h2]
    show [a / 4 * 4 + a % 4 * 16 / 16] = [a]
    rw [List.cons.injEq]
    exact ⟨by omega, rfl⟩
  | case3 a b =>
    intro h
    have ha : a < 256 := h a (by simp)
    have hb : b < 256 := h b (by simp)
    have h1 : a / 4 < 64 := by omega
    have h2 : a % 4 * 16 + b / 16 < 64 := by omega
    have h3 : b % 16 * 4 < 64 := by omega
    show atobBytes [sixtetToChar (a / 4), sixtetToChar (a % 4 * 16 + b / 16),
      sixtetToChar (b % 16 * 4), '='] = [a, b]
    unfold atobBytes
    rw [filter_pad_cons_alpha _ h1, filter_pad_cons_alpha _ h2, filter_pad_cons_alpha _ h3,
      filter_pad_cons_pad, List.filter_nil, List.map_cons, List.map_cons, List.map_cons,
      List.map_nil, charToSixtet_sixtetToChar _ h1, charToSixtet_sixtetToChar _ h2,
      charToSixtet_sixtetToChar _ h3]
    show [a / 4 * 4 + (a % 4 * 16 + b / 16) / 16,
      (a % 4 * 16 + b / 16) % 16 * 16 + b % 16 * 4 / 4] = [a, b]
    rw [List.cons.injEq, List.cons.injEq]
    exact ⟨by omega, by omega, rfl⟩
  | case4 a b c rest ih =>
    intro h
    have ha : a < 256 := h a (by simp)
    have hb : b < 256 := h b (by simp)
    have hc : c < 256 := h c (by simp)
    have hrest : ∀ x ∈ rest, x < 256 := fun x hx => h x (by simp [hx])
    have h1 : a / 4 < 64 := by omega
    have h2 : a % 4 * 16 + b / 16 < 64 := by omega
    have h3 : b % 16 * 4 + c / 64 < 64 := by omega
    have h4 : c % 64 < 64 := by omega
    have ih' : sixtetsToBytes (((btoaBytes rest).filter (fun c => c ≠ '=')).map charToSixtet)
        = rest := ih hrest
    show atobBytes (sixtetToChar (a / 4) :: sixtetToChar (a % 4 * 16 + b / 16) ::
      sixtetToChar (b % 16 * 4 + c / 64) :: sixtetToChar (c % 64) :: btoaBytes rest) =
      a :: b :: c :: rest
    unfold atobBytes
    rw [filter_pad_cons_alpha _ h1, filter_pad_cons_alpha _ h2, filter_pad_cons_alpha _ h3,
      filter_pad_cons_alpha _ h4, List.map_cons, List.map_cons, List.map_cons, List.map_cons,
      charToSixtet_sixtetToChar _ h1, charToSixtet_sixtetToChar _ h2,
      charToSixtet_sixtetToChar _ h3, charToSixtet_sixtetToChar _ h4]
    show (a / 4 * 4 + (a % 4 * 16 + b / 16) / 16) ::
      ((a % 4 * 16 + b / 16) % 16 * 16 + (b % 16 * 4 + c / 64) / 4) ::
      ((b % 16 * 4 + c / 64) % 4 * 64 + c % 64) ::
      sixtetsToBytes (((btoaBytes rest).filter (fun c => c ≠ '=')).map charToSixtet) =
      a :: b :: c :: rest
    rw [ih', List.cons.injEq, List.cons.injEq, List.cons.injEq]
    exact ⟨by omega, by omega, by omega, rfl⟩

/-! ### Claim theorems -/

/-- Claim C1. The claim says a late-arriving `onopen` after a mid-flight
`stop()` has no effect: no microphone acquisition, no capture graph, state
idle. The code's `onopen` checks nothing: after start followed by stop,
the late `onopen` still acquires the microphone, wires the capture graph,
stores the stream, and marks the session active. -/
theorem stop_midflight_onopen_still_wires :
    Effect.micAcquire ∈ (onopen true stoppedMidStart).2 ∧
    Effect.graphWire ∈ (onopen true stoppedMidStart).2 ∧
    (onopen true stoppedMidStart).1.isActive = true ∧
    (onopen true stoppedMidStart).1.streamRef = some () ∧
    (onopen true stoppedMidStart).1.scriptProcessorRef = some () := by
  refine ⟨?_, ?_, rfl, rfl, rfl⟩ <;> decide

/-- Claim C2. The claim says the turn appended on turn-complete carries the
concatenation of the partial deltas. The code appends the `currentInterim`
value captured by the `onmessage` closure at session start (the empty
turn), not the accumulated buffers, so for the deltas "Hel", "lo" the
appended turn is empty while the deltas concatenate to "Hello"; the
buffers are indeed cleared afterwards. -/
theorem turnComplete_appends_stale_interim :
    (runMessages ⟨"", ""⟩ liveActiveState scenarioAMessages).transcription =
      [⟨"", ""⟩] ∧
    (runMessages ⟨"", ""⟩ liveActiveState scenarioAMessages).currentInterim =
      ⟨"", ""⟩ ∧
    specConcatDeltas scenarioAMessages = ⟨"Hello", ""⟩ ∧
    (⟨"", ""⟩ : Turn) ≠ ⟨"Hello", ""⟩ := by
  refine ⟨rfl, rfl, rfl, ?_⟩
  decide

/-- Claim C3. The playback cursor starts at 0, which equals a fresh output
context's `currentTime`; the schedule built by `max`-then-advance never
overlaps, and with no underrun the final cursor is the initial cursor plus
the sum of all scheduled durations. -/
theorem playback_scheduling_correct (chunks : List (ℚ × ℚ))
    (h : noUnderrunB initialNextStartTime chunks = true) :
    initialNextStartTime = freshContextCurrentTime ∧
    noOverlapB (scheduleChunks initialNextStartTime chunks).1 = true ∧
    (scheduleChunks initialNextStartTime chunks).2 =
      initialNextStartTime + durSum chunks :=
  ⟨rfl, scheduleChunks_noOverlap chunks _, scheduleChunks_final chunks _ h⟩

/-- Witness for C3: two chunks of durations 1 and 2 both arriving at
context time 0 satisfy the no-underrun hypothesis. -/
theorem playback_scheduling_correct_witness :
    noUnderrunB initialNextStartTime [((0 : ℚ), 1), (0, 2)] = true ∧
    (initialNextStartTime = freshContextCurrentTime ∧
     noOverlapB (scheduleChunks initialNextStartTime [((0 : ℚ), 1), (0, 2)]).1 = true ∧
     (scheduleChunks initialNextStartTime [((0 : ℚ), 1), (0, 2)]).2 =
       initialNextStartTime + durSum [((0 : ℚ), 1), (0, 2)]) :=
  ⟨by simp [noUnderrunB, initialNextStartTime],
   playback_scheduling_correct _ (by simp [noUnderrunB, initialNextStartTime])⟩

/-- Counterexample for C4: stopping with a non-empty interim buffer leaves
the transcript log without any appended turn and the buffer uncleared —
no final TranscriptTurn is emitted. -/
theorem stopConversation_drops_interim_buffer :
    interimPendingState.currentInterim = ⟨"hello", "hi there"⟩ ∧
    (stopConversation interimPendingState).1.transcription =
      interimPendingState.transcription ∧
    (stopConversation interimPendingState).1.currentInterim =
      ⟨"hello", "hi there"⟩ ∧
    (⟨"hello", "hi there"⟩ : Turn) ≠ ⟨"", ""⟩ := by
  refine ⟨rfl, rfl, rfl, ?_⟩
  decide

/-- Claim C4 as amended: only the Transcriber flushes on teardown.
`stopTranscription` appends the captured interim text (the current buffer
on the button-click path) to the finalized transcription and clears the
buffer; `stopConversation` of LiveChat leaves the transcript log and the
interim buffers entirely untouched — neither appended nor cleared. -/
theorem teardown_flush_per_component (s : LiveChatState) (t : TranscriberState) :
    (stopConversation s).1.transcription = s.transcription ∧
    (stopConversation s).1.currentInterim = s.currentInterim ∧
    (stopTranscription t.transcription t).1.finalizedTranscription =
      t.finalizedTranscription ++ t.transcription ∧
    (stopTranscription t.transcription t).1.transcription = "" :=
  ⟨(stop_transcript_untouched s).1, (stop_transcript_untouched s).2,
   (stopTranscription_flushes t.transcription t).1,
   (stopTranscription_flushes t.transcription t).2⟩

/-- Claim C5. The claim says a failed microphone acquisition aborts
cleanly: stream closed, no session retained, state idle. In the code the
`getUserMedia` rejection escapes the uncaught async `onopen` callback:
the session promise stays in `sessionRef`, no close is ever issued, and
`isConnecting` remains true forever. -/
theorem mic_denied_leaves_half_open_session :
    startDeniedState.isConnecting = true ∧
    startDeniedState.isActive = false ∧
    startDeniedState.sessionRef = some () ∧
    (onopen false liveConnectingState).2 = [] ∧
    Effect.sessionClose ∉
      (startConversation initialLiveChatState).2 ++
        (onopen false liveConnectingState).2 := by
  refine ⟨rfl, rfl, rfl, rfl, ?_⟩
  decide

/-- Counterexample for C6: on a remote close the handler runs
`stopConversation`, and because `sessionRef` is still set it issues a
`session.close()` back to the already-closed backend stream — the claim
says no close request is issued. -/
theorem onclose_reissues_session_close :
    Effect.sessionClose ∈ (onclose liveActiveState).2 := by
  decide

/-- Claim C6 as amended: on a remote-initiated close the handler performs
the full local teardown (microphone tracks stopped, capture node
disconnected, audio context closed, state idle), but it also re-issues a
close request to the backend stream, since the session reference is still
set when `stopConversation` runs. -/
theorem onclose_teardown_with_reclose (s : LiveChatState)
    (h1 : s.sessionRef = some ()) (h2 : s.streamRef = some ())
    (h3 : s.scriptProcessorRef = some ())
    (h4 : s.audioContextRef = some CtxState.running) :
    (onclose s).2 =
      [Effect.sessionClose, Effect.trackStop, Effect.procDisconnect, Effect.ctxClose] ∧
    (onclose s).1.isActive = false ∧
    (onclose s).1.isConnecting = false ∧
    (onclose s).1.sessionRef = none ∧
    (onclose s).1.streamRef = none ∧
    (onclose s).1.scriptProcessorRef = none ∧
    (onclose s).1.audioContextRef = some CtxState.closed := by
  obtain ⟨ic, ia, tr, ci, sess, str, proc, ctx⟩ := s
  simp only at h1 h2 h3 h4
  subst h1; subst h2; subst h3; subst h4
  simp [onclose, stopConversation]

/-- Witness for C6's amended theorem at the established-session state. -/
theorem onclose_teardown_with_reclose_witness :
    liveActiveState.sessionRef = some () ∧
    liveActiveState.streamRef = some () ∧
    liveActiveState.scriptProcessorRef = some () ∧
    liveActiveState.audioContextRef = some CtxState.running ∧
    ((onclose liveActiveState).2 =
      [Effect.sessionClose, Effect.trackStop, Effect.procDisconnect, Effect.ctxClose] ∧
    (onclose liveActiveState).1.isActive = false ∧
    (onclose liveActiveState).1.isConnecting = false ∧
    (onclose liveActiveState).1.sessionRef = none ∧
    (onclose liveActiveState).1.streamRef = none ∧
    (onclose liveActiveState).1.scriptProcessorRef = none ∧
    (onclose liveActiveState).1.audioContextRef = some CtxState.closed) :=
  ⟨rfl, rfl, rfl, rfl, onclose_teardown_with_reclose liveActiveState rfl rfl rfl rfl⟩

/-- Counterexample for C7: a malformed chunk arriving with the context
clock at 1 while the cursor is 0 moves the cursor to 1 — the claim says
the cursor is unchanged by a failed chunk (the code runs
`nextStartTime = Math.max(nextStartTime, currentTime)` before the decode
throws). -/
theorem malformed_chunk_advances_cursor :
    (processAudioChunk 0 1 none).1 = 1 ∧
    (1 : ℚ) ≠ 0 ∧
    (processAudioChunk 0 1 none).2 = none := by
  refine ⟨?_, one_ne_zero, rfl⟩
  simp [processAudioChunk, max_def, zero_le_one]

/-- Claim C7 as amended: a malformed chunk never schedules a buffer and
never advances the cursor by any duration; it may only snap the cursor
forward to `max(cursor, currentTime)`, which is observationally harmless:
with a monotone clock, the next chunk is scheduled exactly as if the
malformed chunk had never arrived, so subsequent chunks are still decoded
and scheduled unperturbed. -/
theorem malformed_chunk_dropped_without_schedule (cursor t t' : ℚ)
    (x : Option ℚ) (h : t ≤ t') :
    (processAudioChunk cursor t none).2 = none ∧
    processAudioChunk (processAudioChunk cursor t none).1 t' x =
      processAudioChunk cursor t' x := by
  refine ⟨rfl, ?_⟩
  cases x <;> simp [processAudioChunk, max_assoc, max_eq_right h]

/-- Witness for C7's amended theorem: failed chunk at clock 0, good chunk
of duration 2 at clock 1. -/
theorem malformed_chunk_dropped_without_schedule_witness :
    (0 : ℚ) ≤ 1 ∧
    ((processAudioChunk 3 0 none).2 = none ∧
     processAudioChunk (processAudioChunk 3 0 none).1 1 (some 2) =
       processAudioChunk 3 1 (some 2)) :=
  ⟨zero_le_one, malformed_chunk_dropped_without_schedule 3 0 1 (some 2) zero_le_one⟩

/-- Counterexample for C8: in the Transcriber, a second `start()` while
the first is still in flight (connect issued, `onopen` not yet run, so
`isRecording` is still false) is not a no-op — it opens a second backend
stream. -/
theorem transcriber_start_while_connecting_not_noop :
    transcriberConnectingState.isRecording = false ∧
    transcriberConnectingState.sessionRef = some () ∧
    (startTranscription transcriberConnectingState).2 = [Effect.streamOpen] :=
  ⟨rfl, rfl, rfl⟩

/-- Claim C8 as amended: `startConversation` is a silent no-op whenever a
session is active or a start is in flight (its guard checks both flags);
`startTranscription` is a silent no-op only while a recording is active —
its guard does not cover a start still in flight. -/
theorem start_noop_guards (s : LiveChatState) (t : TranscriberState)
    (hs : s.isActive = true ∨ s.isConnecting = true)
    (ht : t.isRecording = true) :
    startConversation s = (s, []) ∧ startTranscription t = (t, []) := by
  constructor
  · have hb : (s.isActive || s.isConnecting) = true := by
      rcases hs with h | h <;> simp [h]
    simp [startConversation, hb]
  · simp [startTranscription, ht]

/-- Witness for C8's amended theorem: an active LiveChat session and a
recording Transcriber session. -/
theorem start_noop_guards_witness :
    (liveActiveState.isActive = true ∨ liveActiveState.isConnecting = true) ∧
    transcriberRecordingState.isRecording = true ∧
    (startConversation liveActiveState = (liveActiveState, []) ∧
     startTranscription transcriberRecordingState = (transcriberRecordingState, [])) :=
  ⟨Or.inl rfl, rfl,
   start_noop_guards liveActiveState transcriberRecordingState (Or.inl rfl) rfl⟩

/-- Claim C9. `stop()` is idempotent in both components: calling it
`n + 1` times gives exactly the state and the effect trace of the first
call, so the remaining `n` calls contribute no effects and change nothing
(for `stopTranscription`, whose flush appends the captured interim on
every invocation, this holds because the value re-captured after the
first stop is the cleared, empty string, and appending it is a no-op);
on an established session the single teardown is exactly: backend stream
close, microphone track stop, capture node disconnect, audio context
close — in both components. -/
theorem stop_idempotent_one_teardown (s : LiveChatState) (t : TranscriberState)
    (n : Nat) :
    stopTimes (n + 1) s = stopConversation s ∧
    stopTranscriptionTimes (n + 1) t = stopTranscription t.transcription t ∧
    (stopConversation liveActiveState).2 =
      [Effect.sessionClose, Effect.trackStop, Effect.procDisconnect, Effect.ctxClose] ∧
    (stopTranscription transcriberRecordingState.transcription
        transcriberRecordingState).2 =
      [Effect.sessionClose, Effect.trackStop, Effect.procDisconnect, Effect.ctxClose] :=
  ⟨stopTimes_succ_eq n s, stopTranscriptionTimes_succ_eq n t, rfl, rfl⟩

/-- Claim C10. `decode` inverts `encode` on every byte sequence: the
base64 wire representation of PCM frames is lossless. -/
theorem decode_encode_roundtrip (bytes : List Nat)
    (h : ∀ b ∈ bytes, b < 256) :
    decode (encode bytes) = bytes := by
  unfold decode encode atobStr
  rw [map_ofNat_toNat bytes h, atobBytes_btoaBytes bytes h, map_ofNat_toNat bytes h]

/-- Witness for C10 at the byte sequence `[72, 105, 33, 255, 0]`. -/
theorem decode_encode_roundtrip_witness :
    (∀ b ∈ [72, 105, 33, 255, 0], b < 256) ∧
    decode (encode [72, 105, 33, 255, 0]) = [72, 105, 33, 255, 0] :=
  ⟨by decide, decode_encode_roundtrip _ (by decide)⟩

end ChatGPS
